import Mathlib

/-!
Shallow embedding of `pycbc/workflow/summaryplots.py`.

The module assembles job-graph fragments: each stage-setup routine creates
`Node`s for an `Executable`, attaches command-line options, registers the
nodes with the workflow, and adds a dependency edge from the producing node
of every input file to each newly created node.

The workflow state (node collection, dependency-edge collection, config,
detector list, analysis time) is passed explicitly.  External collaborators
from `pycbc.workflow.core` (`Executable`, `Node`, `File`, the config
accessor) are not under `src/`; where their behaviour matters they are
modelled from the spec, as marked in the relevant doc comments.
-/

/-- A pipeline artifact: its name and the id of the node that produced it
(the Python side reaches this as `f.node._dax_node`). -/
structure WFile where
  name : String
  producer : Nat
deriving DecidableEq, Repr

/-- One scheduled invocation of an executable: the node id used for DAG
edges, the executable name and the attached command-line options, in the
order `node.add_opt` attached them. -/
structure NodeRec where
  id : Nat
  exe : String
  opts : List (String × String)
deriving DecidableEq, Repr

/-- The shared workflow state mutated by the routines: the config, the
detector list `workflow.ifos`, the GPS `analysis_time` pair, the node
collection, the dependency-edge collection (parent node id, child node id)
of `workflow._adag`, and the next fresh node id. -/
structure Workflow where
  cp : List ((String × String) × String)
  ifos : List String
  analysis_time : Nat × Nat
  nodes : List NodeRec
  deps : List (Nat × Nat)
  nextId : Nat
deriving DecidableEq, Repr

/-- Modelled from the spec: the configuration accessor is a read-only
key/tag lookup; `get_opt_tags(section, option, tags)` supplies the value
stored under the section and option name. -/
def cp_get (cp : List ((String × String) × String)) (sec opt : String) : Option String :=
  cp.lookup (sec, opt)

/-- Modelled from the spec: `cp.get_opt_tags(section, option, tags)`, the
tagged variant of the lookup; the tag-section merging lives in the
workflow-core collaborator and is not observable through this module, so
the `tags` argument does not change the looked-up key here. -/
def get_opt_tags (cp : List ((String × String) × String)) (sec opt : String)
    (tags : List String) : Option String :=
  match tags with
  | _ => cp_get cp sec opt

/-- `workflow.cp.set(section, option, value)`: later lookups see the new
binding. -/
def cp_set (w : Workflow) (sec opt val : String) : Workflow :=
  { w with cp := ((sec, opt), val) :: w.cp }

/-- Modelled from the spec: the workflow-core `Executable` descriptor binds
a logical job name to its participating detector set (the `detectors`
constructor argument, `workflow.ifos` at every call site in this module). -/
structure Executable where
  name : String
  ifo_list : List String
deriving DecidableEq, Repr

/-- Modelled from the spec: `executable.ifo_string` is the concatenated
detector string of the participating detectors. -/
def Executable.ifo_string (e : Executable) : String :=
  String.join e.ifo_list

/-- `workflow.add_node(node)` followed by the dependency loop
`for f in input_files: workflow._adag.addDependency(parent=f.node, child=node)`:
appends one node with the given options and one edge per input file. -/
def addNodeWithDeps (w : Workflow) (exe : String) (opts : List (String × String))
    (input_files : List WFile) : Workflow :=
  { w with
    nodes := w.nodes ++ [⟨w.nextId, exe, opts⟩],
    nextId := w.nextId + 1,
    deps := w.deps ++ input_files.map (fun f => (f.producer, w.nextId)) }

/-- The node-creation loop of a stage-setup routine: one
`addNodeWithDeps` per option set, in loop order. -/
def addNodes (exe : String) (input_files : List WFile) :
    Workflow → List (List (String × String)) → Workflow
  | w, [] => w
  | w, opts :: rest => addNodes exe input_files (addNodeWithDeps w exe opts input_files) rest

/-- Options attached by `setup_plotinspiral` to the node for one
(tag, ifo) pair (`summaryplots.py` lines 70-79). -/
def plotinspiralOpts (w : Workflow)
    (cache_filename inspiral_cachepattern output_dir ifo tag : String) :
    List (String × String) :=
  [("--gps-start-time", toString w.analysis_time.1),
   ("--gps-end-time", toString w.analysis_time.2),
   ("--cache-file", cache_filename),
   ("--ifo-times", ifo),
   ("--ifo-tag", "FIRST_" ++ ifo),
   ("--user-tag", tag.toUpper ++ "_SUMMARY_PLOTS"),
   ("--output-path", output_dir),
   ("--trig-pattern", inspiral_cachepattern),
   ("--enable-output", "")]

/-- `setup_plotinspiral`: one node per (tag, ifo) pair over the detector list of the job; returns the never-appended `plot_files = FileList([])`. -/
def setup_plotinspiral (w : Workflow) (input_files : List WFile)
    (cache_filename inspiral_cachepattern output_dir : String) (tags : List String) :
    Workflow × List WFile :=
  let plotinspiral_job : Executable := { name := "plotinspiral", ifo_list := w.ifos }
  let optss := tags.flatMap (fun tag =>
    plotinspiral_job.ifo_list.map (fun ifo =>
      plotinspiralOpts w cache_filename inspiral_cachepattern output_dir ifo tag))
  (addNodes "plotinspiral" input_files w optss, [])

/-- Options attached by `setup_plotnumtemplates` to the node for one tag
(`summaryplots.py` lines 129-137). -/
def plotnumtemplatesOpts (w : Workflow)
    (cache_filename tmpltbank_cachepattern output_dir : String)
    (job : Executable) (tag : String) : List (String × String) :=
  [("--gps-start-time", toString w.analysis_time.1),
   ("--gps-end-time", toString w.analysis_time.2),
   ("--cache-file", cache_filename),
   ("--ifo-times", job.ifo_string),
   ("--user-tag", tag.toUpper ++ "_SUMMARY_PLOTS"),
   ("--output-path", output_dir),
   ("--bank-pattern", tmpltbank_cachepattern),
   ("--enable-output", "")]

/-- `setup_plotnumtemplates`: one node per tag. -/
def setup_plotnumtemplates (w : Workflow) (input_files : List WFile)
    (cache_filename tmpltbank_cachepattern output_dir : String) (tags : List String) :
    Workflow × List WFile :=
  let plotnumtemplates_job : Executable := { name := "plotnumtemplates", ifo_list := w.ifos }
  let optss := tags.map (fun tag =>
    plotnumtemplatesOpts w cache_filename tmpltbank_cachepattern output_dir plotnumtemplates_job tag)
  (addNodes "plotnumtemplates" input_files w optss, [])

/-- `itertools.combinations l n`: all size-`n` subsequences of `l`, in the
lexicographic order of positions that `itertools` produces. -/
def combinations {α : Type} : Nat → List α → List (List α)
  | 0, _ => [[]]
  | _ + 1, [] => []
  | n + 1, x :: xs => (combinations n xs).map (fun ys => x :: ys) ++ combinations (n + 1) xs

/-- The `ifo_combos` loop of `setup_plotthinca` (lines 188-191): for
`n in xrange(len(ifo_list)+1)` collect `itertools.combinations(ifo_list, n+2)`,
i.e. every detector combination of size 2 upward, in stable order. -/
def ifo_combos (ifo_list : List String) : List (List String) :=
  (List.range (ifo_list.length + 1)).flatMap (fun n => combinations (n + 2) ifo_list)

/-- Options attached by `setup_plotthinca` to the node for one
(tag, detector-combination) pair (lines 198-210), including the
per-detector `--<ifo>-triggers` flags with lower-cased identifier. -/
def thincaOpts (w : Workflow)
    (cache_filename coinc_cachepattern slide_cachepattern output_dir : String)
    (ifo_list : List String) (tag : String) : List (String × String) :=
  let ifo_string := String.join ifo_list
  [("--gps-start-time", toString w.analysis_time.1),
   ("--gps-end-time", toString w.analysis_time.2),
   ("--cache-file", cache_filename),
   ("--ifo-times", ifo_string),
   ("--ifo-tag", "SECOND_" ++ ifo_string)]
  ++ ifo_list.map (fun ifo => ("--" ++ ifo.toLower ++ "-triggers", ""))
  ++ [("--user-tag", tag.toUpper ++ "_SUMMARY_PLOTS"),
      ("--output-path", output_dir),
      ("--coinc-pattern", coinc_cachepattern),
      ("--slide-pattern", slide_cachepattern),
      ("--enable-output", "")]

/-- `setup_plotthinca`: one node per (tag, detector combination of size
at least 2). -/
def setup_plotthinca (w : Workflow) (input_files : List WFile)
    (cache_filename coinc_cachepattern slide_cachepattern output_dir : String)
    (tags : List String) : Workflow × List WFile :=
  let plotthinca_job : Executable := { name := "plotthinca", ifo_list := w.ifos }
  let combos := ifo_combos plotthinca_job.ifo_list
  let optss := tags.flatMap (fun tag =>
    combos.map (fun c =>
      thincaOpts w cache_filename coinc_cachepattern slide_cachepattern output_dir c tag))
  (addNodes "plotthinca" input_files w optss, [])

/-- Options attached by `setup_plotinspiralrange` to the node for one tag
(lines 261-270). -/
def plotinspiralrangeOpts (w : Workflow)
    (cache_filename tmpltbank_cachepattern inspiral_cachepattern output_dir : String)
    (job : Executable) (tag : String) : List (String × String) :=
  [("--gps-start-time", toString w.analysis_time.1),
   ("--gps-end-time", toString w.analysis_time.2),
   ("--cache-file", cache_filename),
   ("--ifo-times", job.ifo_string),
   ("--user-tag", tag.toUpper ++ "_SUMMARY_PLOTS"),
   ("--output-path", output_dir),
   ("--bank-pattern", tmpltbank_cachepattern),
   ("--trig-pattern", inspiral_cachepattern),
   ("--enable-output", "")]

/-- `setup_plotinspiralrange`: one node per tag. -/
def setup_plotinspiralrange (w : Workflow) (input_files : List WFile)
    (cache_filename tmpltbank_cachepattern inspiral_cachepattern output_dir : String)
    (tags : List String) : Workflow × List WFile :=
  let plotinspiralrange_job : Executable := { name := "plotinspiralrange", ifo_list := w.ifos }
  let optss := tags.map (fun tag =>
    plotinspiralrangeOpts w cache_filename tmpltbank_cachepattern inspiral_cachepattern
      output_dir plotinspiralrange_job tag)
  (addNodes "plotinspiralrange" input_files w optss, [])

/-- `os.makedirs(p)`: raises (`none`) when the path already exists,
otherwise records the new directory. -/
def makedirs (fs : List String) (p : String) : Option (List String) :=
  if p ∈ fs then none else some (p :: fs)

/-- The guarded directory creation
`if not os.path.exists(p): os.makedirs(p)` shared by
`setup_summary_plots`, `setup_hardware_injection_page` and
`get_hardware_injection_segment_files`. -/
def ensure_dir (fs : List String) (p : String) : Option (List String) :=
  if p ∈ fs then some fs else makedirs fs p

/-- The file-system state `ensure_dir` leaves behind (it never raises). -/
def ensureDirFS (fs : List String) (p : String) : List String :=
  if p ∈ fs then fs else p :: fs

/-- `setup_summary_plots`: makes the output directory, then runs
`setup_plotinspiral`, `setup_plotinspiralrange`, `setup_plotnumtemplates`
in that order and concatenates their file lists; the `setup_plotthinca`
call is commented out in the source. -/
def setup_summary_plots (w : Workflow) (input_files : List WFile)
    (cache_filename tmpltbank_cachepattern inspiral_cachepattern output_dir : String)
    (tags : List String) (fs : List String) :
    Option (List String × Workflow × List WFile) :=
  match ensure_dir fs output_dir with
  | none => none
  | some fs1 =>
    let r1 := setup_plotinspiral w input_files cache_filename inspiral_cachepattern
      output_dir tags
    let r2 := setup_plotinspiralrange r1.1 input_files cache_filename
      tmpltbank_cachepattern inspiral_cachepattern output_dir tags
    let r3 := setup_plotnumtemplates r2.1 input_files cache_filename
      tmpltbank_cachepattern output_dir tags
    some (fs1, r3.1, r1.2 ++ r2.2 ++ r3.2)

/-- `os.path.basename`: the last `/`-separated component. -/
def basename (p : String) : String :=
  match (p.splitOn "/").reverse with
  | [] => p
  | x :: _ => x

/-- `get_hardware_injection_segment_files`: creates the log directory,
reads the executable and segment-database config keys, then makes the
blocking external segment-query call, whose success is the `callOk`
parameter.  Returns the file-system state and `none` when any step
raises. -/
def get_hardware_injection_segment_files (w : Workflow)
    (output_dir hwinjDefPath : String) (callOk : Bool) (fs : List String) :
    List String × Option Unit :=
  match ensure_dir fs (output_dir ++ "/logs") with
  | none => (fs, none)
  | some fs1 =>
    match cp_get w.cp "executables" "hardware_injection_page",
          cp_get w.cp "workflow-segments" "segments-database-url", hwinjDefPath with
    | some _, some _, _ => if callOk then (fs1, some ()) else (fs1, none)
    | _, _, _ => (fs1, none)

/-- Modelled from the spec: the storage path of a workflow-core `File`
built from the detector string, description, time window, extension and
directory. -/
def fileStoragePath (ifo_string desc : String) (t : Nat × Nat) (ext dir : String) : String :=
  dir ++ "/" ++ ifo_string ++ "-" ++ desc ++ "-" ++ toString t.1 ++ "-"
    ++ toString (t.2 - t.1) ++ "." ++ ext

/-- Options attached by `setup_hardware_injection_page` to its single node
(lines 399-410), including the per-detector `--<ifo>-injections` flags
with lower-cased identifier. -/
def hwinjpageOpts (w : Workflow)
    (cache_filename inspiral_cachepattern output_dir hwinjDefNewPath outfilePath : String) :
    List (String × String) :=
  [("--gps-start-time", toString w.analysis_time.1),
   ("--gps-end-time", toString w.analysis_time.2),
   ("--source-xml", hwinjDefNewPath),
   ("--segment-dir", output_dir),
   ("--cache-file", cache_filename),
   ("--cache-pattern", inspiral_cachepattern),
   ("--analyze-injections", "")]
  ++ w.ifos.map (fun ifo => ("--" ++ ifo.toLower ++ "-injections", ""))
  ++ [("--outfile", outfilePath)]

/-- `setup_hardware_injection_page`: makes the output directory, fetches
the definer document (`fetchOk` is the success of `urllib.urlretrieve`),
persists its local path into the config, runs the segment query
(`segQueryOk`), and only after both external calls succeed constructs and
registers the single node and its dependency edges.  The returned workflow
and file system are the state at normal return or at the raise; the third
component is `none` exactly when the routine raises.  The declared
output file is modelled from the spec (exactly one report document). -/
def setup_hardware_injection_page (w : Workflow) (input_files : List WFile)
    (cache_filename inspiral_cachepattern output_dir : String) (tags : List String)
    (fetchOk segQueryOk : Bool) (fs : List String) :
    List String × Workflow × Option (List WFile) :=
  match ensure_dir fs output_dir with
  | none => (fs, w, none)
  | some fs1 =>
    match get_opt_tags w.cp "workflow-hardware-injections" "hwinj-definer-url" tags with
    | none => (fs1, w, none)
    | some url =>
      let hwinjDefNewPath := output_dir ++ "/" ++ basename url
      if fetchOk then
        let w1 := cp_set w "workflow-hardware-injections" "hwinj-definer-file" hwinjDefNewPath
        match get_hardware_injection_segment_files w1 output_dir hwinjDefNewPath segQueryOk fs1 with
        | (fs2, none) => (fs2, w1, none)
        | (fs2, some _) =>
          let hwinjpage_job : Executable := { name := "hardware_injection_page", ifo_list := w.ifos }
          let outfilePath := fileStoragePath hwinjpage_job.ifo_string "HWINJ_SUMMARY"
            w1.analysis_time "html" output_dir
          let nodeId := w1.nextId
          let w2 := addNodeWithDeps w1 "hardware_injection_page"
            (hwinjpageOpts w1 cache_filename inspiral_cachepattern output_dir
              hwinjDefNewPath outfilePath) input_files
          (fs2, w2, some [⟨outfilePath, nodeId⟩])
      else (fs1, w, none)

/-- The run of nodes a loop of `addNodeWithDeps` appends: one node per
option set, with consecutive fresh ids starting at `s`. -/
def mkNodesFrom (exe : String) : Nat → List (List (String × String)) → List NodeRec
  | _, [] => []
  | s, opts :: rest => ⟨s, exe, opts⟩ :: mkNodesFrom exe (s + 1) rest

/-- Every node beyond the first `oldLen` (the nodes a call created) has a
dependency edge from the producer of every input file. -/
def depsCover (oldLen : Nat) (wNew : Workflow) (ins : List WFile) : Bool :=
  (wNew.nodes.drop oldLen).all (fun nd =>
    ins.all (fun f => wNew.deps.contains (f.producer, nd.id)))

/-- Every `--user-tag` option among `opts` carries an upper-cased tag from
`tags` followed by the `_SUMMARY_PLOTS` suffix. -/
def userTagOk (tags : List String) (opts : List (String × String)) : Bool :=
  opts.all (fun kv =>
    !(kv.1 == "--user-tag") || tags.any (fun tag => kv.2 == tag.toUpper ++ "_SUMMARY_PLOTS"))

/-- Every option key ending in `-triggers` is a per-detector flag built
from the lower-cased identifier of a detector in `ifos`. -/
def trigFlagsLower (ifos : List String) (opts : List (String × String)) : Bool :=
  opts.all (fun kv =>
    !(kv.1.endsWith "-triggers") || ifos.any (fun ifo => kv.1 == "--" ++ ifo.toLower ++ "-triggers"))

/-- A three-detector workflow in its initial state. -/
def wfThreeIfos : Workflow :=
  { cp := [], ifos := ["H1", "L1", "V1"], analysis_time := (100, 200),
    nodes := [], deps := [], nextId := 0 }

/-- A two-detector workflow in its initial state. -/
def wfTwoIfos : Workflow :=
  { cp := [], ifos := ["H1", "L1"], analysis_time := (100, 200),
    nodes := [], deps := [], nextId := 0 }

/-- A two-detector workflow whose config carries the three keys the
hardware-injection routines read. -/
def wfHwinj : Workflow :=
  { cp := [(("workflow-hardware-injections", "hwinj-definer-url"), "http://x/defs.xml"),
           (("executables", "hardware_injection_page"), "exe"),
           (("workflow-segments", "segments-database-url"), "db")],
    ifos := ["H1", "L1"], analysis_time := (0, 50), nodes := [], deps := [], nextId := 0 }

/-- Two input files with distinct producing nodes. -/
def insExample : List WFile := [⟨"f", 7⟩, ⟨"g", 8⟩]

theorem mkNodesFrom_length (exe : String) :
    ∀ (s : Nat) (optss : List (List (String × String))),
    (mkNodesFrom exe s optss).length = optss.length
  | _, [] => rfl
  | s, _ :: rest => by
    simp [mkNodesFrom, mkNodesFrom_length exe (s + 1) rest]

theorem mkNodesFrom_map_opts (exe : String) :
    ∀ (s : Nat) (optss : List (List (String × String))),
    (mkNodesFrom exe s optss).map NodeRec.opts = optss
  | _, [] => rfl
  | s, _ :: rest => by
    simp [mkNodesFrom, mkNodesFrom_map_opts exe (s + 1) rest]

theorem mkNodesFrom_exe (exe : String) :
    ∀ (s : Nat) (optss : List (List (String × String))) (nd : NodeRec),
    nd ∈ mkNodesFrom exe s optss → nd.exe = exe
  | _, [], _ => by simp [mkNodesFrom]
  | s, _ :: rest, nd => by
    simp only [mkNodesFrom, List.mem_cons]
    rintro (rfl | h)
    · rfl
    · exact mkNodesFrom_exe exe (s + 1) rest nd h

theorem addNodes_eq (exe : String) (ins : List WFile) :
    ∀ (optss : List (List (String × String))) (w : Workflow),
    addNodes exe ins w optss =
      { w with
        nodes := w.nodes ++ mkNodesFrom exe w.nextId optss,
        nextId := w.nextId + optss.length,
        deps := w.deps ++ (mkNodesFrom exe w.nextId optss).flatMap
          (fun nd => ins.map (fun f => (f.producer, nd.id))) }
  | [], w => by simp [addNodes, mkNodesFrom]
  | opts :: rest, w => by
    rw [addNodes, addNodes_eq exe ins rest]
    simp [addNodeWithDeps, mkNodesFrom, List.append_assoc]
    omega

theorem addNodes_nodes_length (exe : String) (ins : List WFile) (w : Workflow)
    (optss : List (List (String × String))) :
    (addNodes exe ins w optss).nodes.length = w.nodes.length + optss.length := by
  rw [addNodes_eq]
  simp [mkNodesFrom_length]

theorem mkNodesFrom_deps_length (exe : String) (ins : List WFile) :
    ∀ (s : Nat) (optss : List (List (String × String))),
    ((mkNodesFrom exe s optss).flatMap
        (fun nd => ins.map (fun f => (f.producer, nd.id)))).length
      = optss.length * ins.length
  | _, [] => by simp [mkNodesFrom]
  | s, _ :: rest => by
    simp only [mkNodesFrom, List.flatMap_cons, List.length_append, List.length_map,
      mkNodesFrom_deps_length exe ins (s + 1) rest, List.length_cons]
    ring

theorem addNodes_deps_length (exe : String) (ins : List WFile) (w : Workflow)
    (optss : List (List (String × String))) :
    (addNodes exe ins w optss).deps.length = w.deps.length + optss.length * ins.length := by
  rw [addNodes_eq]
  simp only [List.length_append, mkNodesFrom_deps_length]

theorem addNodes_cover (exe : String) (ins : List WFile) (w : Workflow)
    (optss : List (List (String × String))) :
    depsCover w.nodes.length (addNodes exe ins w optss) ins = true := by
  rw [addNodes_eq]
  simp only [depsCover, List.drop_left, List.all_eq_true]
  intro nd hnd f hf
  rw [List.elem_iff]
  exact List.mem_append_right _
    (List.mem_flatMap.mpr ⟨nd, hnd, List.mem_map.mpr ⟨f, hf, rfl⟩⟩)

theorem combinations_length {α : Type} :
    ∀ (l : List α) (n : Nat), (combinations n l).length = Nat.choose l.length n
  | _, 0 => by simp [combinations]
  | [], n + 1 => by simp [combinations]
  | x :: xs, n + 1 => by
    simp [combinations, combinations_length xs n, combinations_length xs (n + 1),
      Nat.choose_succ_succ, Nat.add_comm]

theorem combinations_subset {α : Type} :
    ∀ (l : List α) (n : Nat) (ys : List α), ys ∈ combinations n l → ∀ a ∈ ys, a ∈ l
  | l, 0, ys => by
    simp only [combinations, List.mem_singleton]
    rintro rfl a ha
    simp at ha
  | [], n + 1, ys => by simp [combinations]
  | x :: xs, n + 1, ys => by
    simp only [combinations, List.mem_append, List.mem_map]
    rintro (⟨zs, hzs, rfl⟩ | hys) a ha
    · rcases List.mem_cons.mp ha with rfl | ha
      · exact List.mem_cons_self _ _
      · exact List.mem_cons_of_mem _ (combinations_subset xs n zs hzs a ha)
    · exact List.mem_cons_of_mem _ (combinations_subset xs (n + 1) ys hys a ha)

theorem sum_range_choose_shift (k : Nat) :
    Finset.sum (Finset.range (k + 1)) (fun n => Nat.choose k (n + 2))
      = Finset.sum (Finset.Icc 2 k) (fun i => Nat.choose k i) := by
  have h1 : Finset.sum (Finset.Ico 2 (k + 3)) (fun i => Nat.choose k i)
      = Finset.sum (Finset.range (k + 3 - 2)) (fun n => Nat.choose k (2 + n)) :=
    Finset.sum_Ico_eq_sum_range _ _ _
  have h2 : Finset.sum (Finset.Icc 2 k) (fun i => Nat.choose k i)
      = Finset.sum (Finset.Ico 2 (k + 3)) (fun i => Nat.choose k i) := by
    apply Finset.sum_subset
    · intro x hx
      simp only [Finset.mem_Icc] at hx
      simp only [Finset.mem_Ico]
      omega
    · intro x hx hnx
      simp only [Finset.mem_Ico] at hx
      simp only [Finset.mem_Icc, not_and, not_le] at hnx
      exact Nat.choose_eq_zero_of_lt (by omega)
  rw [h2, h1]
  have h3 : k + 3 - 2 = k + 1 := by omega
  rw [h3]
  apply Finset.sum_congr rfl
  intro x _
  rw [Nat.add_comm]

theorem ifo_combos_length (l : List String) :
    (ifo_combos l).length
      = Finset.sum (Finset.Icc 2 l.length) (fun i => Nat.choose l.length i) := by
  rw [ifo_combos, List.length_flatMap]
  have h1 : (List.map (List.length ∘ fun n => combinations (n + 2) l) (List.range (l.length + 1)))
      = List.map (fun n => Nat.choose l.length (n + 2)) (List.range (l.length + 1)) := by
    apply List.map_congr_left
    intro n _
    simp [Function.comp, combinations_length l (n + 2)]
  rw [h1]
  exact sum_range_choose_shift l.length

theorem ifo_combos_subset (l : List String) (c : List String) (hc : c ∈ ifo_combos l) :
    ∀ a ∈ c, a ∈ l := by
  simp only [ifo_combos, List.mem_flatMap, List.mem_range] at hc
  obtain ⟨n, _, hcc⟩ := hc
  exact combinations_subset l (n + 2) c hcc

theorem ensure_dir_eq (fs : List String) (p : String) :
    ensure_dir fs p = some (ensureDirFS fs p) := by
  by_cases h : p ∈ fs <;> simp [ensure_dir, ensureDirFS, makedirs, h]

theorem mem_ensureDirFS (fs : List String) (p : String) : p ∈ ensureDirFS fs p := by
  by_cases h : p ∈ fs <;> simp [ensureDirFS, h]

theorem trigKey_ne_userTag_prop (s : String) :
    ¬ ("--" ++ s ++ "-triggers" = "--user-tag") := by
  intro h
  have h2 := congrArg String.length h
  simp only [String.length_append] at h2
  have e1 : ("--" : String).length = 2 := rfl
  have e2 : ("-triggers" : String).length = 9 := rfl
  have e3 : ("--user-tag" : String).length = 10 := rfl
  omega

theorem trigKey_ne_userTag (s : String) :
    (("--" ++ s ++ "-triggers") == "--user-tag") = false := by
  rw [beq_eq_false_iff_ne]
  intro h
  have h2 := congrArg String.length h
  simp only [String.length_append] at h2
  have e1 : ("--" : String).length = 2 := rfl
  have e2 : ("-triggers" : String).length = 9 := rfl
  have e3 : ("--user-tag" : String).length = 10 := rfl
  omega

theorem get_opt_tags_eq (cp : List ((String × String) × String)) (sec opt : String)
    (tags : List String) : get_opt_tags cp sec opt tags = cp_get cp sec opt := rfl

/-- C10: each of the four plot stage-setup routines returns the empty file
list it initialized (no file is ever appended), for every input, so the
combined dispatcher result from these stages is always empty. -/
theorem plot_stages_return_empty (w : Workflow) (ins : List WFile)
    (cache tb ip cpat spat out : String) (tags fs : List String) :
    (setup_plotinspiral w ins cache ip out tags).2 = []
    ∧ (setup_plotnumtemplates w ins cache tb out tags).2 = []
    ∧ (setup_plotthinca w ins cache cpat spat out tags).2 = []
    ∧ (setup_plotinspiralrange w ins cache tb ip out tags).2 = []
    ∧ ((setup_summary_plots w ins cache tb ip out tags fs).map (fun r => r.2.2)) = some [] := by
  refine ⟨rfl, rfl, rfl, rfl, ?_⟩
  rw [setup_summary_plots, ensure_dir_eq]
  rfl

/-- C9: the guarded output-directory creation shared by
`setup_summary_plots`, `setup_hardware_injection_page` and
`get_hardware_injection_segment_files` never raises, and calling it a
second time with the path that now exists succeeds with the same state. -/
theorem ensure_dir_idempotent (fs : List String) (p : String) :
    (ensure_dir fs p).isSome = true
    ∧ ∀ fs', ensure_dir fs p = some fs' → ensure_dir fs' p = some fs' := by
  constructor
  · rw [ensure_dir_eq]
    rfl
  · intro fs' h
    rw [ensure_dir_eq] at h
    have hfs := Option.some.inj h
    subst hfs
    simp [ensure_dir, mem_ensureDirFS]

/-- C9 witness: creating `plots` in an empty file system and then running
the guarded creation again succeeds. -/
theorem ensure_dir_idempotent_witness :
    (ensure_dir [] "plots").isSome = true ∧ ensure_dir ["plots"] "plots" = some ["plots"] :=
  ⟨(ensure_dir_idempotent [] "plots").1,
   (ensure_dir_idempotent [] "plots").2 ["plots"] (by decide)⟩

/-- C4: with detectors H1, L1, V1 and the single tag `full_data`,
`setup_plotthinca` creates exactly 4 nodes, one per subset
H1L1, H1V1, L1V1, H1L1V1, and the `--ifo-tag` value of each node is
`SECOND_` followed by the concatenated detector identifiers. -/
theorem plotthinca_three_ifos_end_to_end :
    (setup_plotthinca wfThreeIfos [] "c" "cpat" "spat" "o" ["full_data"]).1.nodes.length = 4
    ∧ ((setup_plotthinca wfThreeIfos [] "c" "cpat" "spat" "o" ["full_data"]).1.nodes.map
        (fun nd => nd.opts.lookup "--ifo-times"))
      = [some "H1L1", some "H1V1", some "L1V1", some "H1L1V1"]
    ∧ ((setup_plotthinca wfThreeIfos [] "c" "cpat" "spat" "o" ["full_data"]).1.nodes.map
        (fun nd => nd.opts.lookup "--ifo-tag"))
      = [some "SECOND_H1L1", some "SECOND_H1V1", some "SECOND_L1V1", some "SECOND_H1L1V1"] := by
  decide

theorem flatMap_map_length {α β γ : Type} (tags : List α) (l : List β) (g : α → β → γ) :
    (tags.flatMap (fun t => l.map (g t))).length = tags.length * l.length := by
  rw [List.length_flatMap]
  simp only [Function.comp_def, List.length_map]
  simp [List.map_const]

/-- C3: for a detector list of size `k`, the `setup_plotthinca` enumeration
generates exactly `Σ_\x7bi=2\x7d^\x7bk\x7d C(k,i)` detector subsets; being a pure
function of the detector list, two calls with the same list produce the
same subsets in the same order.  With a single tag, `setup_plotthinca`
creates exactly one node per enumerated subset. -/
theorem ifo_combos_count_and_stable (l : List String) :
    (ifo_combos l).length
      = Finset.sum (Finset.Icc 2 l.length) (fun i => Nat.choose l.length i)
    ∧ (∀ l', l = l' → ifo_combos l = ifo_combos l')
    ∧ (∀ (w : Workflow) (ins : List WFile) (cache cpat spat out tag : String),
        (setup_plotthinca w ins cache cpat spat out [tag]).1.nodes.length
          = w.nodes.length + (ifo_combos w.ifos).length) := by
  refine ⟨ifo_combos_length l, fun l' h => by rw [h], ?_⟩
  intro w ins cache cpat spat out tag
  show (addNodes "plotthinca" ins w
    (([tag] : List String).flatMap (fun t =>
      (ifo_combos w.ifos).map (fun c => thincaOpts w cache cpat spat out c t)))).nodes.length
    = w.nodes.length + (ifo_combos w.ifos).length
  rw [addNodes_nodes_length]
  simp only [List.flatMap_cons, List.flatMap_nil, List.append_nil, List.length_map]

/-- C3 witness: the count, stability and node-count statements evaluated on
the three-detector list. -/
theorem ifo_combos_count_and_stable_witness :
    (ifo_combos ["H1", "L1", "V1"]).length
      = Finset.sum (Finset.Icc 2 3) (fun i => Nat.choose 3 i)
    ∧ ifo_combos ["H1", "L1", "V1"] = ifo_combos ["H1", "L1", "V1"]
    ∧ (setup_plotthinca wfThreeIfos [] "c" "cpat" "spat" "o" ["t"]).1.nodes.length
        = wfThreeIfos.nodes.length + (ifo_combos wfThreeIfos.ifos).length :=
  ⟨(ifo_combos_count_and_stable ["H1", "L1", "V1"]).1,
   (ifo_combos_count_and_stable ["H1", "L1", "V1"]).2.1 ["H1", "L1", "V1"] rfl,
   (ifo_combos_count_and_stable ["H1", "L1", "V1"]).2.2 wfThreeIfos [] "c" "cpat" "spat" "o" "t"⟩

/-- C2 counterexample: with two detectors and one tag, `setup_plotinspiral`
creates 2 nodes, not `len(tags) = 1` — it loops over every (tag, detector)
pair, so the claim fails as stated for `setup_plotinspiral`. -/
theorem plotinspiral_node_count_counterexample :
    (setup_plotinspiral wfTwoIfos [] "c" "p" "o" ["A"]).1.nodes.length = 2
    ∧ ¬ ((setup_plotinspiral wfTwoIfos [] "c" "p" "o" ["A"]).1.nodes.length
          = (["A"] : List String).length) := by
  decide

/-- C2 amended: for every non-empty tag list, `setup_plotnumtemplates` and
`setup_plotinspiralrange` create exactly `len(tags)` nodes, while
`setup_plotinspiral` creates `len(tags) * len(workflow.ifos)` nodes. -/
theorem noncombinatorial_node_counts (w : Workflow) (ins : List WFile)
    (cache tb ip out : String) (tags : List String) (h : tags ≠ []) :
    (setup_plotnumtemplates w ins cache tb out tags).1.nodes.length
      = w.nodes.length + tags.length
    ∧ (setup_plotinspiralrange w ins cache tb ip out tags).1.nodes.length
      = w.nodes.length + tags.length
    ∧ (setup_plotinspiral w ins cache ip out tags).1.nodes.length
      = w.nodes.length + tags.length * w.ifos.length := by
  refine ⟨?_, ?_, ?_⟩
  · rw [setup_plotnumtemplates]
    simp only [addNodes_nodes_length, List.length_map]
  · rw [setup_plotinspiralrange]
    simp only [addNodes_nodes_length, List.length_map]
  · rw [setup_plotinspiral]
    simp only [addNodes_nodes_length, flatMap_map_length]

/-- C2 witness: the amended node counts evaluated for one tag and two
detectors. -/
theorem noncombinatorial_node_counts_witness :
    (["A"] : List String) ≠ []
    ∧ ((setup_plotnumtemplates wfTwoIfos [] "c" "tb" "o" ["A"]).1.nodes.length
        = wfTwoIfos.nodes.length + (["A"] : List String).length
      ∧ (setup_plotinspiralrange wfTwoIfos [] "c" "tb" "ip" "o" ["A"]).1.nodes.length
        = wfTwoIfos.nodes.length + (["A"] : List String).length
      ∧ (setup_plotinspiral wfTwoIfos [] "c" "ip" "o" ["A"]).1.nodes.length
        = wfTwoIfos.nodes.length + (["A"] : List String).length * wfTwoIfos.ifos.length) :=
  ⟨by decide, noncombinatorial_node_counts wfTwoIfos [] "c" "tb" "ip" "o" ["A"] (by decide)⟩

/-- C5 counterexample: `setup_hardware_injection_page` called with
`tags=[]` still registers one node and returns a non-empty file list on
the success path, so the claim fails as stated for that routine. -/
theorem hwinjpage_empty_tags_counterexample :
    (setup_hardware_injection_page wfHwinj [] "c" "p" "out" [] true true []).2.1.nodes.length = 1
    ∧ ¬ ((setup_hardware_injection_page wfHwinj [] "c" "p" "out" [] true true []).2.1.nodes
          = wfHwinj.nodes
        ∧ (setup_hardware_injection_page wfHwinj [] "c" "p" "out" [] true true []).2.2
          = some []) := by
  decide

/-- C5 amended: each of the four plot stage-setup routines called with
`tags=[]` returns an empty file list and leaves the workflow (nodes and
edges included) unchanged, while `setup_hardware_injection_page` does not
depend on `tags` at all — in particular it creates its node even when
`tags=[]`. -/
theorem empty_tags_noop (w : Workflow) (ins : List WFile)
    (cache tb ip cpat spat out : String) (fetchOk segQueryOk : Bool) (fs : List String) :
    setup_plotinspiral w ins cache ip out [] = (w, [])
    ∧ setup_plotnumtemplates w ins cache tb out [] = (w, [])
    ∧ setup_plotthinca w ins cache cpat spat out [] = (w, [])
    ∧ setup_plotinspiralrange w ins cache tb ip out [] = (w, [])
    ∧ ∀ tags1 tags2 : List String,
        setup_hardware_injection_page w ins cache ip out tags1 fetchOk segQueryOk fs
          = setup_hardware_injection_page w ins cache ip out tags2 fetchOk segQueryOk fs :=
  ⟨rfl, rfl, rfl, rfl, fun _ _ => rfl⟩

theorem mkNodesFrom_all_exe (e : String) (p : String → Bool) (h : p e = true)
    (s : Nat) (optss : List (List (String × String))) :
    (mkNodesFrom e s optss).all (fun nd => p nd.exe) = true := by
  rw [List.all_eq_true]
  intro nd hnd
  rw [mkNodesFrom_exe e s optss nd hnd]
  exact h

theorem addNodes_three_all_exe (e1 e2 e3 : String) (ins : List WFile) (w : Workflow)
    (o1 o2 o3 : List (List (String × String))) (p : String → Bool)
    (h1 : p e1 = true) (h2 : p e2 = true) (h3 : p e3 = true) :
    (((addNodes e3 ins (addNodes e2 ins (addNodes e1 ins w o1) o2) o3).nodes.drop
        w.nodes.length).all (fun nd => p nd.exe)) = true := by
  simp only [addNodes_eq]
  simp only [List.append_assoc, List.drop_left, List.all_append, Bool.and_eq_true]
  exact ⟨mkNodesFrom_all_exe e1 p h1 _ _,
         mkNodesFrom_all_exe e2 p h2 _ _,
         mkNodesFrom_all_exe e3 p h3 _ _⟩

/-- C6: `setup_summary_plots` runs `setup_plotinspiral`,
`setup_plotinspiralrange`, `setup_plotnumtemplates` in that fixed order on
the threaded workflow and returns the concatenation of their file lists in
that order; every node the dispatcher adds comes from those three stages —
none is a `plotthinca` node, the commented-out stage is never invoked. -/
theorem dispatcher_fixed_order (w : Workflow) (ins : List WFile)
    (cache tb ip out : String) (tags fs : List String) :
    setup_summary_plots w ins cache tb ip out tags fs
      = some (ensureDirFS fs out,
          (setup_plotnumtemplates
            (setup_plotinspiralrange
              (setup_plotinspiral w ins cache ip out tags).1
              ins cache tb ip out tags).1
            ins cache tb out tags).1,
          (setup_plotinspiral w ins cache ip out tags).2
            ++ (setup_plotinspiralrange
                  (setup_plotinspiral w ins cache ip out tags).1
                  ins cache tb ip out tags).2
            ++ (setup_plotnumtemplates
                  (setup_plotinspiralrange
                    (setup_plotinspiral w ins cache ip out tags).1
                    ins cache tb ip out tags).1
                  ins cache tb out tags).2)
    ∧ (((setup_plotnumtemplates
          (setup_plotinspiralrange
            (setup_plotinspiral w ins cache ip out tags).1
            ins cache tb ip out tags).1
          ins cache tb out tags).1.nodes.drop w.nodes.length).all
        (fun nd => !(nd.exe == "plotthinca"))) = true := by
  constructor
  · rw [setup_summary_plots, ensure_dir_eq]
  · exact addNodes_three_all_exe "plotinspiral" "plotinspiralrange" "plotnumtemplates"
      ins w _ _ _ (fun x => !(x == "plotthinca")) rfl rfl rfl

theorem addNodes_claim (exe : String) (ins : List WFile) (w : Workflow)
    (optss : List (List (String × String))) :
    w.deps.length + ins.length * ((addNodes exe ins w optss).nodes.length - w.nodes.length)
      ≤ (addNodes exe ins w optss).deps.length
    ∧ depsCover w.nodes.length (addNodes exe ins w optss) ins = true := by
  constructor
  · rw [addNodes_deps_length, addNodes_nodes_length]
    have h : w.nodes.length + optss.length - w.nodes.length = optss.length := by omega
    rw [h]
    exact Nat.le_of_eq (by rw [Nat.mul_comm])
  · exact addNodes_cover exe ins w optss

theorem depsCover_self (w : Workflow) (ins : List WFile) :
    depsCover w.nodes.length w ins = true := by
  simp [depsCover, List.drop_length]

theorem hwinjpage_claim (w : Workflow) (ins : List WFile) (cache ip out : String)
    (tags : List String) (fetchOk segQueryOk : Bool) (fs : List String) :
    w.deps.length + ins.length
        * ((setup_hardware_injection_page w ins cache ip out tags
              fetchOk segQueryOk fs).2.1.nodes.length - w.nodes.length)
      ≤ (setup_hardware_injection_page w ins cache ip out tags
          fetchOk segQueryOk fs).2.1.deps.length
    ∧ depsCover w.nodes.length
        (setup_hardware_injection_page w ins cache ip out tags fetchOk segQueryOk fs).2.1
        ins = true := by
  simp only [setup_hardware_injection_page, ensure_dir_eq]
  split
  · exact ⟨by simp, depsCover_self w ins⟩
  · split
    · split
      · exact ⟨by simp [cp_set], depsCover_self w ins⟩
      · exact addNodes_claim "hardware_injection_page" ins _ [_]
    · exact ⟨by simp, depsCover_self w ins⟩

/-- C1: for every stage-setup routine, every file in the input list gets a
dependency edge from its producing node to every node the call created,
and the number of edges grows by at least `len(input_files)` times the
number of nodes created. -/
theorem stage_setup_edge_coverage (w : Workflow) (ins : List WFile)
    (cache tb ip cpat spat out : String) (tags : List String)
    (fetchOk segQueryOk : Bool) (fs : List String) :
    (w.deps.length + ins.length
        * ((setup_plotinspiral w ins cache ip out tags).1.nodes.length - w.nodes.length)
      ≤ (setup_plotinspiral w ins cache ip out tags).1.deps.length
      ∧ depsCover w.nodes.length (setup_plotinspiral w ins cache ip out tags).1 ins = true)
    ∧ (w.deps.length + ins.length
        * ((setup_plotnumtemplates w ins cache tb out tags).1.nodes.length - w.nodes.length)
      ≤ (setup_plotnumtemplates w ins cache tb out tags).1.deps.length
      ∧ depsCover w.nodes.length (setup_plotnumtemplates w ins cache tb out tags).1 ins = true)
    ∧ (w.deps.length + ins.length
        * ((setup_plotthinca w ins cache cpat spat out tags).1.nodes.length - w.nodes.length)
      ≤ (setup_plotthinca w ins cache cpat spat out tags).1.deps.length
      ∧ depsCover w.nodes.length (setup_plotthinca w ins cache cpat spat out tags).1 ins = true)
    ∧ (w.deps.length + ins.length
        * ((setup_plotinspiralrange w ins cache tb ip out tags).1.nodes.length - w.nodes.length)
      ≤ (setup_plotinspiralrange w ins cache tb ip out tags).1.deps.length
      ∧ depsCover w.nodes.length (setup_plotinspiralrange w ins cache tb ip out tags).1 ins
          = true)
    ∧ (w.deps.length + ins.length
        * ((setup_hardware_injection_page w ins cache ip out tags
              fetchOk segQueryOk fs).2.1.nodes.length - w.nodes.length)
      ≤ (setup_hardware_injection_page w ins cache ip out tags
          fetchOk segQueryOk fs).2.1.deps.length
      ∧ depsCover w.nodes.length
          (setup_hardware_injection_page w ins cache ip out tags fetchOk segQueryOk fs).2.1
          ins = true) :=
  ⟨addNodes_claim _ _ _ _, addNodes_claim _ _ _ _, addNodes_claim _ _ _ _,
   addNodes_claim _ _ _ _, hwinjpage_claim w ins cache ip out tags fetchOk segQueryOk fs⟩

theorem seg_files_callOk_false (w : Workflow) (out p : String) (fs : List String) :
    (get_hardware_injection_segment_files w out p false fs).2 = none := by
  simp only [get_hardware_injection_segment_files, ensure_dir_eq]
  split
  · rfl
  · rfl

/-- C7: if the definer-document fetch or the external segment query fails,
`setup_hardware_injection_page` aborts with no node registered and no
dependency edge added — node construction and registration happen only
after both external calls succeed. -/
theorem hwinjpage_abort_no_node_registered (w : Workflow) (ins : List WFile)
    (cache ip out : String) (tags : List String) (fetchOk segQueryOk : Bool)
    (fs : List String) (h : fetchOk = false ∨ segQueryOk = false) :
    (setup_hardware_injection_page w ins cache ip out tags
        fetchOk segQueryOk fs).2.1.nodes = w.nodes
    ∧ (setup_hardware_injection_page w ins cache ip out tags
        fetchOk segQueryOk fs).2.1.deps = w.deps
    ∧ (setup_hardware_injection_page w ins cache ip out tags
        fetchOk segQueryOk fs).2.2 = none := by
  simp only [setup_hardware_injection_page, ensure_dir_eq]
  split
  · exact ⟨rfl, rfl, rfl⟩
  · split
    · rename_i hft
      have hseg : segQueryOk = false := by
        rcases h with hf | hs
        · subst hf
          exact absurd hft Bool.false_ne_true
        · exact hs
      subst hseg
      split
      · exact ⟨rfl, rfl, rfl⟩
      · rename_i heq
        have h2 := congrArg Prod.snd heq
        rw [seg_files_callOk_false] at h2
        simp at h2
    · exact ⟨rfl, rfl, rfl⟩

/-- C7 witness: with the segment query failing, the routine registers no
node, adds no edge, and raises. -/
theorem hwinjpage_abort_witness :
    (setup_hardware_injection_page wfHwinj insExample "c" "p" "out" ["t"]
        true false []).2.1.nodes = wfHwinj.nodes
    ∧ (setup_hardware_injection_page wfHwinj insExample "c" "p" "out" ["t"]
        true false []).2.1.deps = wfHwinj.deps
    ∧ (setup_hardware_injection_page wfHwinj insExample "c" "p" "out" ["t"]
        true false []).2.2 = none :=
  hwinjpage_abort_no_node_registered wfHwinj insExample "c" "p" "out" ["t"]
    true false [] (Or.inr rfl)

/-- C8: tag case normalization at the option-attachment boundary: in every
node-creating routine the attached `--user-tag` value is the upper-cased
tag followed by `_SUMMARY_PLOTS`, and the per-detector flags
(`--<ifo>-triggers`, `--<ifo>-injections`) are built from the lower-cased
detector identifier. -/
theorem option_case_normalization :
    (∀ (w : Workflow) (c p o ifo tag : String),
      (plotinspiralOpts w c p o ifo tag).lookup "--user-tag"
        = some (tag.toUpper ++ "_SUMMARY_PLOTS"))
    ∧ (∀ (w : Workflow) (c tb o tag : String) (job : Executable),
      (plotnumtemplatesOpts w c tb o job tag).lookup "--user-tag"
        = some (tag.toUpper ++ "_SUMMARY_PLOTS"))
    ∧ (∀ (w : Workflow) (c tb p o tag : String) (job : Executable),
      (plotinspiralrangeOpts w c tb p o job tag).lookup "--user-tag"
        = some (tag.toUpper ++ "_SUMMARY_PLOTS"))
    ∧ (∀ (w : Workflow) (c cpat spat o tag : String) (combo : List String),
      userTagOk [tag] (thincaOpts w c cpat spat o combo tag) = true)
    ∧ (∀ (w : Workflow) (c cpat spat o tag : String) (combo : List String),
      combo.all (fun ifo =>
        (thincaOpts w c cpat spat o combo tag).contains
          ("--" ++ ifo.toLower ++ "-triggers", "")) = true)
    ∧ (∀ (w : Workflow) (c p o dp op : String),
      w.ifos.all (fun ifo =>
        (hwinjpageOpts w c p o dp op).contains
          ("--" ++ ifo.toLower ++ "-injections", "")) = true) := by
  refine ⟨fun w c p o ifo tag => rfl, fun w c tb o tag job => rfl,
    fun w c tb p o tag job => rfl, ?_, ?_, ?_⟩
  · intro w c cpat spat o tag combo
    simp only [userTagOk, thincaOpts]
    simp [trigKey_ne_userTag]
    intro a _
    exact Or.inl (trigKey_ne_userTag_prop a.toLower)
  · intro w c cpat spat o tag combo
    rw [List.all_eq_true]
    intro ifo hifo
    rw [List.elem_iff]
    simp only [thincaOpts]
    exact List.mem_append_left _
      (List.mem_append_right _ (List.mem_map.mpr ⟨ifo, hifo, rfl⟩))
  · intro w c p o dp op
    rw [List.all_eq_true]
    intro ifo hifo
    rw [List.elem_iff]
    simp only [hwinjpageOpts]
    exact List.mem_append_left _
      (List.mem_append_right _ (List.mem_map.mpr ⟨ifo, hifo, rfl⟩))
